import Mathlib

/-!
Verification development for the multi-agent SDR pipeline
(`agents/app` FastAPI services: lead ingestion, lead scoring, active
outreach, nurture campaign, send email, and the lookup tools in
`agents/app/utils/agent_tools.py`).

Strings are modelled as `List Char`.  The generative model call
(`graph.ainvoke`) is an external collaborator: each stage's
`start_agent_flow` is embedded as a function of the generated text it
receives back, covering everything the stage does after the generation
call (regex extraction, JSON decoding, dictionary access, publish).
Python exceptions are modelled explicitly (`PyErr`), since several
claims are about whether an exception can escape a unit of work.
-/

namespace SDR

/-- The opening brace character. -/
def lbrace : Char := '\x7b'

/-- The closing brace character. -/
def rbrace : Char := '\x7d'

/-- Index of the first occurrence of `c` in a character list
(the leftmost position where a regex scan can start a match). -/
def firstIdx (c : Char) : List Char → Option Nat
  | [] => none
  | a :: as => if a = c then some 0 else (firstIdx c as).map (· + 1)

/-- Index of the last occurrence of `c` in a character list. -/
def lastIdx (c : Char) (s : List Char) : Option Nat :=
  (firstIdx c s.reverse).map (fun k => s.length - 1 - k)

/-- Embedding of `re.search(r"\x7b.*\x7d", content, re.DOTALL)` followed by
`.group()`, as used by the scoring / outreach / nurture stages: the greedy
pattern matches from the first opening brace of the whole string to the last
closing brace, provided the former strictly precedes the latter; otherwise
there is no match (`None`). -/
def extract (s : List Char) : Option (List Char) :=
  match firstIdx lbrace s, lastIdx rbrace s with
  | some i, some j => if i < j then some ((s.take (j + 1)).drop i) else none
  | some _, none => none
  | none, _ => none

theorem firstIdx_get (c : Char) : ∀ (s : List Char) (i : Nat),
    firstIdx c s = some i → s.get? i = some c := by
  intro s
  induction s with
  | nil => intro i h; simp [firstIdx] at h
  | cons a as ih =>
    intro i h
    by_cases hac : a = c
    · simp [firstIdx, hac] at h
      subst h
      simp [hac]
    · simp [firstIdx, hac] at h
      obtain ⟨i', hi', rfl⟩ := h
      simpa using ih i' hi'

theorem firstIdx_lt_length (c : Char) : ∀ (s : List Char) (i : Nat),
    firstIdx c s = some i → i < s.length := by
  intro s
  induction s with
  | nil => intro i h; simp [firstIdx] at h
  | cons a as ih =>
    intro i h
    by_cases hac : a = c
    · simp [firstIdx, hac] at h
      simp only [List.length_cons]
      omega
    · simp [firstIdx, hac] at h
      obtain ⟨i', hi', rfl⟩ := h
      have := ih i' hi'
      simp only [List.length_cons]
      omega

theorem firstIdx_append_of_not_mem (c : Char) (a t : List Char) (hc : c ∉ a) :
    firstIdx c (a ++ t) = (firstIdx c t).map (· + a.length) := by
  induction a with
  | nil => simp [Option.map_id']
  | cons x xs ih =>
    have hxc : x ≠ c := by
      intro h; exact hc (by simp [h])
    have hxs : c ∉ xs := fun h => hc (by simp [h])
    simp only [List.cons_append, firstIdx, if_neg hxc, List.append_eq]
    rw [ih hxs]
    cases firstIdx c t with
    | none => rfl
    | some k =>
      simp only [Option.map_some', List.length_cons, Option.some.injEq]
      omega

theorem firstIdx_cons_self (c : Char) (t : List Char) :
    firstIdx c (c :: t) = some 0 := by
  simp [firstIdx]

theorem extract_of_surrounded (a p b : List Char)
    (ha1 : lbrace ∉ a) (_ha2 : rbrace ∉ a) (_hb1 : lbrace ∉ b) (hb2 : rbrace ∉ b)
    (hph : p.head? = some lbrace) (hpl : p.getLast? = some rbrace)
    (hp2 : 2 ≤ p.length) :
    extract (a ++ p ++ b) = some p := by
  obtain ⟨p', rfl⟩ : ∃ p', p = lbrace :: p' := by
    cases p with
    | nil => simp at hph
    | cons x p' =>
      refine ⟨p', ?_⟩
      simp only [List.head?_cons, Option.some.injEq] at hph
      rw [hph]
  obtain ⟨q, hq⟩ : ∃ q, (lbrace :: p').reverse = rbrace :: q := by
    have := List.head?_reverse (lbrace :: p')
    rw [hpl] at this
    cases hrev : (lbrace :: p').reverse with
    | nil => rw [hrev] at this; simp at this
    | cons y q =>
      rw [hrev] at this
      simp only [List.head?_cons, Option.some.injEq] at this
      exact ⟨q, by rw [this]⟩
  have hfirst : firstIdx lbrace (a ++ (lbrace :: p') ++ b) = some a.length := by
    rw [List.append_assoc, firstIdx_append_of_not_mem _ _ _ ha1]
    simp [firstIdx_cons_self]
  have hlast : lastIdx rbrace (a ++ (lbrace :: p') ++ b)
      = some (a.length + (p'.length + 1) - 1) := by
    unfold lastIdx
    have hrw : (a ++ (lbrace :: p') ++ b).reverse
        = b.reverse ++ ((lbrace :: p').reverse ++ a.reverse) := by
      simp [List.reverse_append, List.append_assoc]
    rw [hrw, firstIdx_append_of_not_mem _ _ _ (by simpa using hb2), hq,
      List.cons_append, firstIdx_cons_self]
    simp only [Option.map_some', Option.some.injEq, List.length_append,
      List.length_reverse, List.length_cons, Nat.zero_add]
    omega
  have hp1 : 1 ≤ p'.length := by
    simp only [List.length_cons] at hp2
    omega
  unfold extract
  rw [hfirst, hlast]
  have hlt : a.length < a.length + (p'.length + 1) - 1 := by omega
  show (if a.length < a.length + (p'.length + 1) - 1 then
      some (((a ++ (lbrace :: p') ++ b).take
        (a.length + (p'.length + 1) - 1 + 1)).drop a.length)
    else none) = some (lbrace :: p')
  rw [if_pos hlt]
  have htk : (a ++ (lbrace :: p')).length = a.length + (p'.length + 1) - 1 + 1 := by
    simp only [List.length_append, List.length_cons]
    omega
  rw [List.take_left' htk, List.drop_left' rfl]

theorem extract_eq_none_of_no_pair (s : List Char)
    (h : ∀ i j, i < j → ¬(s.get? i = some lbrace ∧ s.get? j = some rbrace)) :
    extract s = none := by
  unfold extract
  cases hf : firstIdx lbrace s with
  | none => rfl
  | some i =>
    cases hl : lastIdx rbrace s with
    | none => rfl
    | some j =>
      have hi : s.get? i = some lbrace := firstIdx_get _ _ _ hf
      have hj : s.get? j = some rbrace := by
        unfold lastIdx at hl
        cases hk : firstIdx rbrace s.reverse with
        | none => rw [hk] at hl; simp at hl
        | some k =>
          rw [hk] at hl
          simp only [Option.map_some', Option.some.injEq] at hl
          have hk1 : s.reverse.get? k = some rbrace := firstIdx_get _ _ _ hk
          have hk2 : k < s.length := by
            have := firstIdx_lt_length _ _ _ hk
            simpa using this
          rw [← hl, ← List.get?_reverse hk2]
          exact hk1
      by_cases hij : i < j
      · exact absurd ⟨hi, hj⟩ (h i j hij)
      · show (if i < j then some ((s.take (j + 1)).drop i) else none) = none
        rw [if_neg hij]

/-- JSON values, as produced by `json.loads`.  Numbers are modelled as
integers only: every payload this pipeline handles (scores, next steps,
talking points, email drafts) uses strings, integers, arrays and objects. -/
inductive Json where
  | null : Json
  | bool (b : Bool) : Json
  | num (n : Int) : Json
  | str (s : List Char) : Json
  | arr (elems : List Json) : Json
  | obj (fields : List (List Char × Json)) : Json

/-- Python exceptions that the embedded code can raise. -/
inductive PyErr where
  | jsonDecodeError : PyErr
  | nameError (name : List Char) : PyErr
  | keyError (key : List Char) : PyErr
  | attributeError : PyErr
  | typeError : PyErr

/-- Whitespace skipping inside the JSON grammar. -/
def skipWs : List Char → List Char
  | [] => []
  | c :: cs =>
    if c = ' ' ∨ c = '\n' ∨ c = '\t' ∨ c = '\r' then skipWs cs else c :: cs

/-- Parse the body of a JSON string literal (after the opening quote),
returning the decoded characters and the rest of the input. -/
def parseStrBody (fuel : Nat) (acc : List Char) (s : List Char) :
    Option (List Char × List Char) :=
  match fuel, s with
  | 0, _ => none
  | _, [] => none
  | f + 1, c :: cs =>
    if c = '"' then some (acc.reverse, cs)
    else if c = '\\' then
      match cs with
      | [] => none
      | e :: cs' =>
        if e = 'n' then parseStrBody f ('\n' :: acc) cs'
        else if e = 't' then parseStrBody f ('\t' :: acc) cs'
        else if e = 'r' then parseStrBody f ('\r' :: acc) cs'
        else if e = '"' then parseStrBody f ('"' :: acc) cs'
        else if e = '\\' then parseStrBody f ('\\' :: acc) cs'
        else if e = '/' then parseStrBody f ('/' :: acc) cs'
        else none
    else parseStrBody f (c :: acc) cs

/-- Digits of a nonnegative integer literal. -/
def parseDigits (fuel : Nat) (acc : Nat) (seen : Bool) (s : List Char) :
    Option (Nat × List Char) :=
  match fuel, s with
  | 0, _ => none
  | _, [] => if seen then some (acc, []) else none
  | f + 1, c :: cs =>
    if c.isDigit then
      parseDigits f (acc * 10 + (c.toNat - '0'.toNat)) true cs
    else if seen then some (acc, c :: cs)
    else none

/-- Integer literal, with optional leading minus sign. -/
def parseInt (s : List Char) : Option (Int × List Char) :=
  match s with
  | '-' :: rest =>
    match parseDigits (rest.length + 1) 0 false rest with
    | some (n, rest') => some (-(n : Int), rest')
    | none => none
  | _ =>
    match parseDigits (s.length + 1) 0 false s with
    | some (n, rest') => some ((n : Int), rest')
    | none => none

/-- Does `pre` occur as a prefix of `s`?  Returns the rest on success. -/
def stripLit : List Char → List Char → Option (List Char)
  | [], s => some s
  | _ :: _, [] => none
  | p :: ps, c :: cs => if p = c then stripLit ps cs else none

mutual

/-- Recursive-descent JSON value parser (fuelled). -/
def parseValue (fuel : Nat) (s : List Char) : Option (Json × List Char) :=
  match fuel with
  | 0 => none
  | f + 1 =>
    match skipWs s with
    | [] => none
    | c :: cs =>
      if c = '"' then
        match parseStrBody (cs.length + 1) [] cs with
        | some (str, rest) => some (.str str, rest)
        | none => none
      else if c = lbrace then
        match skipWs cs with
        | d :: ds => if d = rbrace then some (.obj [], ds) else parseMembers f (skipWs cs) []
        | [] => none
      else if c = '[' then
        match skipWs cs with
        | d :: ds => if d = ']' then some (.arr [], ds) else parseElems f (skipWs cs) []
        | [] => none
      else if c = 't' then
        match stripLit ('r' :: 'u' :: 'e' :: []) cs with
        | some rest => some (.bool true, rest)
        | none => none
      else if c = 'f' then
        match stripLit ('a' :: 'l' :: 's' :: 'e' :: []) cs with
        | some rest => some (.bool false, rest)
        | none => none
      else if c = 'n' then
        match stripLit ('u' :: 'l' :: 'l' :: []) cs with
        | some rest => some (.null, rest)
        | none => none
      else
        match parseInt (c :: cs) with
        | some (n, rest) => some (.num n, rest)
        | none => none

/-- Members of a JSON object after the opening brace (at least one). -/
def parseMembers (fuel : Nat) (s : List Char) (acc : List (List Char × Json)) :
    Option (Json × List Char) :=
  match fuel with
  | 0 => none
  | f + 1 =>
    match skipWs s with
    | '"' :: cs =>
      match parseStrBody (cs.length + 1) [] cs with
      | some (key, rest) =>
        match skipWs rest with
        | ':' :: rest2 =>
          match parseValue f rest2 with
          | some (v, rest3) =>
            match skipWs rest3 with
            | ',' :: rest4 => parseMembers f rest4 ((key, v) :: acc)
            | d :: rest4 =>
              if d = rbrace then some (.obj ((key, v) :: acc).reverse, rest4)
              else none
            | [] => none
          | none => none
        | _ => none
      | none => none
    | _ => none

/-- Elements of a JSON array after the opening bracket (at least one). -/
def parseElems (fuel : Nat) (s : List Char) (acc : List Json) :
    Option (Json × List Char) :=
  match fuel with
  | 0 => none
  | f + 1 =>
    match parseValue f s with
    | some (v, rest) =>
      match skipWs rest with
      | ',' :: rest2 => parseElems f rest2 (v :: acc)
      | ']' :: rest2 => some (.arr (v :: acc).reverse, rest2)
      | _ => none
    | none => none

end

/-- Embedding of `json.loads`: parse one JSON document; any leftover
non-whitespace input or parse failure raises `json.JSONDecodeError`. -/
def json_loads (s : List Char) : Except PyErr Json :=
  match parseValue (2 * s.length + 4) s with
  | some (v, rest) => if skipWs rest = [] then .ok v else .error .jsonDecodeError
  | none => .error .jsonDecodeError

/-- Python `d.get(key, default)`: dictionary lookup with a default (later
duplicate keys shadow earlier ones, as in a Python dict literal); calling
`.get` on a non-dict raises `AttributeError`. -/
def pyGet (j : Json) (key : List Char) (dflt : Json) : Except PyErr Json :=
  match j with
  | .obj fields =>
    match fields.reverse.lookup key with
    | some v => .ok v
    | none => .ok dflt
  | _ => .error .attributeError

/-- Python `d[key]` subscript on a parsed JSON value: missing key raises
`KeyError`; subscripting a non-dict with a string raises `TypeError`. -/
def pyItem (j : Json) (key : List Char) : Except PyErr Json :=
  match j with
  | .obj fields =>
    match fields.reverse.lookup key with
    | some v => .ok v
    | none => .error (.keyError key)
  | _ => .error .typeError

/-- Modelled from the spec: `AGENT_OUTPUT_TOPIC` lives in
`agents/app/utils/constants.py`, which is not part of the sources; the spec
says only that a single fixed output topic is used for every stage
transition, so the constant's concrete value is an arbitrary fixed name. -/
def AGENT_OUTPUT_TOPIC : List Char := "agent.output".toList

/-- One call to `produce(topic, \x7b "context": json.dumps(ctx), "lead_data": ld \x7d)`.
The JSON-encoded `context` string is modelled by carrying the encoded value
itself. -/
structure ProducedMessage where
  topic : List Char
  context : Json
  lead_data : Json

/-- Observable outcome of one stage's `start_agent_flow` unit of work after
the generation call returned: it published an envelope, it logged
"No JSON found in the string." and returned cleanly, or a Python exception
escaped the coroutine. -/
inductive FlowOutcome where
  | emitted (msg : ProducedMessage) : FlowOutcome
  | droppedNoJson : FlowOutcome
  | raised (e : PyErr) : FlowOutcome

/-- The publish calls performed by a unit of work. -/
def publishes : FlowOutcome → List ProducedMessage
  | .emitted m => [m]
  | .droppedNoJson => []
  | .raised _ => []

def next_step_key : List Char := "next_step".toList

def emails_key : List Char := "emails".toList

def campaign_type_key : List Char := "campaign_type".toList

/-- `start_agent_flow` of `lead_scoring_agent.py` after the generation call:
regex-extract the brace span from the generated `content`, `json.loads` it,
and publish the parsed evaluation together with the lead details.  There is
no shape, range, or length check between parsing and publishing. -/
def scoring_start_agent_flow (lead_details : Json) (content : List Char) :
    FlowOutcome :=
  match extract content with
  | some json_str =>
    match json_loads json_str with
    | .ok lead_evaluation =>
      .emitted ⟨AGENT_OUTPUT_TOPIC, lead_evaluation, lead_details⟩
    | .error e => .raised e
  | none => .droppedNoJson

/-- `start_agent_flow` of `active_outreach_agent.py` after the generation
call: extract and parse the single email draft, read
`lead_evaluation.get("next_step", None)`, wrap the draft in a one-element
`emails` list tagged with `campaign_type`, and publish. -/
def active_outreach_start_agent_flow (lead_details lead_evaluation : Json)
    (content : List Char) : FlowOutcome :=
  match extract content with
  | some json_str =>
    match json_loads json_str with
    | .ok email_details =>
      match pyGet lead_evaluation next_step_key Json.null with
      | .ok campaign_type =>
        .emitted ⟨AGENT_OUTPUT_TOPIC,
          .obj [(emails_key, .arr [email_details]),
                (campaign_type_key, campaign_type)],
          lead_details⟩
      | .error e => .raised e
    | .error e => .raised e
  | none => .droppedNoJson

/-- `start_agent_flow` of `nurture_campaign_agent.py` after the generation
call: extract and parse the payload, take `json_object["emails"]` as the
nurture sequence (no length check), read
`lead_evaluation.get("next_step", None)`, and publish. -/
def nurture_start_agent_flow (lead_details lead_evaluation : Json)
    (content : List Char) : FlowOutcome :=
  match extract content with
  | some json_str =>
    match json_loads json_str with
    | .ok json_object =>
      match pyItem json_object emails_key with
      | .ok nurture_sequence =>
        match pyGet lead_evaluation next_step_key Json.null with
        | .ok campaign_type =>
          .emitted ⟨AGENT_OUTPUT_TOPIC,
            .obj [(emails_key, nurture_sequence),
                  (campaign_type_key, campaign_type)],
            lead_details⟩
        | .error e => .raised e
      | .error e => .raised e
    | .error e => .raised e
  | none => .droppedNoJson

/-- A FastAPI plain-text `Response`. -/
structure HttpText where
  status_code : Nat
  content : List Char
  media_type : List Char

/-- `Response(content=..., media_type="text/plain", status_code=200)`. -/
def ack (text : List Char) : HttpText :=
  ⟨200, text, "text/plain".toList⟩

def scoring_ack_text : List Char := "Lead Scoring Agent Started".toList

def ingestion_ack_text : List Char := "Lead Ingestion Agent Started".toList

def outreach_ack_text : List Char := "Actively Engage Agent Started".toList

def nurture_ack_text : List Char := "Nurture Campaign Agent Started".toList

/-- One element of the POST body of `/lead-scoring-agent`:
`item.get('lead_data', \x7b\x7d)` and `item.get('context', "")`. -/
structure ScoringItem where
  lead_data : Json
  context : Json

/-- One element of the POST body of `/lead-ingestion-agent`. -/
structure IngestionItem where
  lead_data : Json
  agent_name : Json

/-- An `asyncio.create_task(start_agent_flow(...))` call made by the scoring
handler: the arguments of the scheduled, not-yet-awaited unit of work. -/
structure ScoringTask where
  lead_details : Json
  context : Json

/-- The POST branch of the `/lead-scoring-agent` handler: for each item of
the batch it schedules one fire-and-forget task and then immediately
returns the plain-text acknowledgement, without awaiting any task. -/
def lead_scoring_agent (data : List ScoringItem) : List ScoringTask × HttpText :=
  (data.map (fun item => ⟨item.lead_data, item.context⟩), ack scoring_ack_text)

/-- The POST branch of the `/lead-ingestion-agent` handler. -/
def lead_ingestion_agent (data : List IngestionItem) : List Json × HttpText :=
  (data.map (fun item => item.lead_data), ack ingestion_ack_text)

/-- One element of the POST body of the outreach/nurture handlers:
`lead_data` plus the raw `context` string (a JSON-encoded evaluation). -/
structure RawItem where
  lead_data : Json
  context : List Char

/-- Arguments of a scheduled outreach / nurture unit of work. -/
structure OutreachTask where
  lead_details : Json
  lead_evaluation : Json

/-- Outcome of a request handler: either every item was scheduled and the
200 acknowledgement was returned, or an exception escaped the request loop
after scheduling only the earlier items (FastAPI then returns an error,
not the 200 acknowledgement). -/
inductive HandlerOutcome where
  | ok (tasks : List OutreachTask) (resp : HttpText) : HandlerOutcome
  | raised (tasks : List OutreachTask) (e : PyErr) : HandlerOutcome

/-- The request loop shared by the active-outreach and nurture handlers:
for each item, `json.loads(item['context'])` is evaluated synchronously
inside the loop before that item's task is created; a decode error
propagates out of the handler at that point. -/
def handler_loop (ackText : List Char) :
    List RawItem → List OutreachTask → HandlerOutcome
  | [], acc => .ok acc.reverse (ack ackText)
  | item :: rest, acc =>
    match json_loads item.context with
    | .ok lead_evaluation =>
      handler_loop ackText rest (⟨item.lead_data, lead_evaluation⟩ :: acc)
    | .error e => .raised acc.reverse e

/-- The POST branch of the `/active-outreach-agent` handler. -/
def active_outreach_agent (data : List RawItem) : HandlerOutcome :=
  handler_loop outreach_ack_text data []

/-- The POST branch of the `/nurture-campaign-agent` handler. -/
def nurture_campaign_agent (data : List RawItem) : HandlerOutcome :=
  handler_loop nurture_ack_text data []

/-- The tasks an outreach/nurture batch yields when every item's `context`
string decodes: one task per item, in order.  `none` when some item's
context fails to decode. -/
def parsedTasks : List RawItem → Option (List OutreachTask)
  | [] => some []
  | item :: rest =>
    match json_loads item.context, parsedTasks rest with
    | .ok ev, some ts => some (⟨item.lead_data, ev⟩ :: ts)
    | .ok _, none => none
    | .error _, _ => none

/-- Python `text.split("\n")`. -/
def split_newline : List Char → List (List Char)
  | [] => [[]]
  | c :: cs =>
    match split_newline cs with
    | r :: rs => if c = '\n' then [] :: r :: rs else (c :: r) :: rs
    | [] => [[c]]

/-- ASCII whitespace as stripped by Python `str.strip()`. -/
def py_isspace (c : Char) : Bool :=
  c = ' ' || c = '\t' || c = '\n' || c = '\r' || c = '\x0b' || c = '\x0c'

/-- Python truthiness of `line.strip()`: true iff some character of the
line is not whitespace. -/
def line_nonblank (l : List Char) : Bool :=
  l.any (fun c => !py_isspace c)

/-- `remove_empty_lines` from `agent_tools.py`: keep the lines whose
`strip()` is non-empty and rejoin them with newlines. -/
def remove_empty_lines (text : List Char) : List Char :=
  List.intercalate ['\n'] ((split_newline text).filter line_nonblank)

/-- An HTTP response as seen through `requests`. -/
structure HttpResponse where
  status_code : Nat
  text : List Char

/-- Result of `requests.get`: a response, or a raised
`requests.RequestException` (timeout, connection error, ...). -/
inductive FetchResult where
  | success (r : HttpResponse) : FetchResult
  | requestException : FetchResult

/-- The fixed `timeout=10` passed to `requests.get`. -/
def request_timeout_seconds : Nat := 10

/-- The fixed browser `User-Agent` header sent with the website fetch. -/
def user_agent_header : List Char :=
  "Mozilla/5.0 (Windows NT 10.0; Win64; x64) AppleWebKit/537.36 (KHTML, like Gecko) Chrome/98.0.4758.102 Safari/537.36".toList

/-- `get_company_website_information` from `agent_tools.py`.  The network is
a parameter (`net` maps the URL to what `requests.get` did with the fixed
headers and timeout); `visibleText` is the BeautifulSoup step that drops
style/script/head/title elements of `response.text` and returns the visible
text.  The body returns the cleaned text only when `status_code == 200`,
returns `None` on any other status, and returns `None` when the request
raised a `requests.RequestException` (caught by the `try`/`except`). -/
def get_company_website_information (net : List Char → FetchResult)
    (visibleText : List Char → List Char) (company_website_url : List Char) :
    Option (List Char) :=
  match net company_website_url with
  | .success response =>
    if response.status_code = 200 then
      some (remove_empty_lines (visibleText response.text))
    else
      none
  | .requestException => none

/-- Python name resolution at a `return` statement: look the name up in the
function's local bindings; an unbound name raises `NameError`. -/
def pyLocalLookup (locals : List (List Char × List Char)) (name : List Char) :
    Except PyErr (List Char) :=
  match locals.lookup name with
  | some v => .ok v
  | none => .error (.nameError name)

def response_name : List Char := "response".toList

def data_name : List Char := "data".toList

/-- `find_relevant_content` from `agent_tools.py`: builds the content-search
prompt, binds the generation result to the local `data`, then executes
`return response` — but no local named `response` exists in this function. -/
def find_relevant_content (gen : List Char → List Char)
    (search_query : List Char) : Except PyErr (List Char) :=
  let prompt :=
    "Take the search query and generate a list of related marketing assets".toList
      ++ search_query
  pyLocalLookup [(data_name, gen prompt)] response_name

/-- `get_recent_linkedin_posts` from `agent_tools.py`: binds the generation
result to `data`, then executes `return response` (unbound). -/
def get_recent_linkedin_posts (gen : List Char → List Char)
    (lead_details : List Char) : Except PyErr (List Char) :=
  let prompt :=
    "Using the lead details, create some fake data".toList ++ lead_details
  pyLocalLookup [(data_name, gen prompt)] response_name

/-- `get_salesforce_data` from `agent_tools.py`: binds the generation result
to `data`, then executes `return response` (unbound). -/
def get_salesforce_data (gen : List Char → List Char)
    (lead_details : List Char) : Except PyErr (List Char) :=
  let prompt :=
    "Take the lead details and generate realistic Salesforce data".toList
      ++ lead_details
  pyLocalLookup [(data_name, gen prompt)] response_name

/-- `get_enriched_lead_data` from `agent_tools.py`: binds the generation
result to `data`, then executes `return response` (unbound). -/
def get_enriched_lead_data (gen : List Char → List Char)
    (lead_details : List Char) : Except PyErr (List Char) :=
  let prompt :=
    "Take the lead details and generate realistic Clearbit data".toList
      ++ lead_details
  pyLocalLookup [(data_name, gen prompt)] response_name

theorem parsedTasks_length :
    ∀ (data : List RawItem) (tasks : List OutreachTask),
      parsedTasks data = some tasks → tasks.length = data.length := by
  intro data
  induction data with
  | nil =>
    intro tasks h
    unfold parsedTasks at h
    injection h with h'
    rw [← h']
    rfl
  | cons item rest ih =>
    intro tasks h
    unfold parsedTasks at h
    cases hj : json_loads item.context with
    | error e => simp only [hj] at h; cases h
    | ok ev =>
      simp only [hj] at h
      cases hr : parsedTasks rest with
      | none => simp only [hr] at h; cases h
      | some ts =>
        simp only [hr] at h
        injection h with h'
        rw [← h']
        have := ih ts hr
        simp only [List.length_cons]
        omega

theorem handler_loop_ok (ackText : List Char) :
    ∀ (data : List RawItem) (acc tasks : List OutreachTask),
      parsedTasks data = some tasks →
      handler_loop ackText data acc = .ok (acc.reverse ++ tasks) (ack ackText) := by
  intro data
  induction data with
  | nil =>
    intro acc tasks h
    unfold parsedTasks at h
    injection h with h'
    rw [← h']
    simp [handler_loop]
  | cons item rest ih =>
    intro acc tasks h
    unfold parsedTasks at h
    cases hj : json_loads item.context with
    | error e => simp only [hj] at h; cases h
    | ok ev =>
      simp only [hj] at h
      cases hr : parsedTasks rest with
      | none => simp only [hr] at h; cases h
      | some ts =>
        simp only [hr] at h
        injection h with h'
        rw [← h']
        unfold handler_loop
        simp only [hj]
        rw [ih (⟨item.lead_data, ev⟩ :: acc) ts hr]
        simp [List.append_assoc]

theorem handler_loop_raised (ackText : List Char) (bad : RawItem)
    (post : List RawItem) (e : PyErr)
    (hbad : json_loads bad.context = .error e) :
    ∀ (pre : List RawItem) (acc tasks : List OutreachTask),
      parsedTasks pre = some tasks →
      handler_loop ackText (pre ++ bad :: post) acc
        = .raised (acc.reverse ++ tasks) e := by
  intro pre
  induction pre with
  | nil =>
    intro acc tasks h
    unfold parsedTasks at h
    injection h with h'
    rw [← h']
    simp only [List.nil_append]
    unfold handler_loop
    simp only [hbad]
    simp
  | cons item rest ih =>
    intro acc tasks h
    unfold parsedTasks at h
    cases hj : json_loads item.context with
    | error e' => simp only [hj] at h; cases h
    | ok ev =>
      simp only [hj] at h
      cases hr : parsedTasks rest with
      | none => simp only [hr] at h; cases h
      | some ts =>
        simp only [hr] at h
        injection h with h'
        rw [← h']
        show handler_loop ackText ((item :: rest) ++ bad :: post) acc = _
        rw [List.cons_append]
        unfold handler_loop
        simp only [hj]
        rw [ih (⟨item.lead_data, ev⟩ :: acc) ts hr]
        simp [List.append_assoc]

/-! ## Claim theorems -/

/-- Claim C2: extraction takes the greedy span from the first opening brace
to the last closing brace of the whole generated string: when exactly one
brace-delimited payload is surrounded by brace-free commentary, `extract`
returns that payload, and when no opening brace is followed by a later
closing brace, `extract` returns `None`. -/
theorem C2_extract_greedy_span :
    (∀ a p b : List Char, lbrace ∉ a → rbrace ∉ a → lbrace ∉ b → rbrace ∉ b →
        p.head? = some lbrace → p.getLast? = some rbrace → 2 ≤ p.length →
        extract (a ++ p ++ b) = some p) ∧
    (∀ s : List Char,
        (∀ i j, i < j → ¬(s.get? i = some lbrace ∧ s.get? j = some rbrace)) →
        extract s = none) :=
  ⟨extract_of_surrounded, extract_eq_none_of_no_pair⟩

/-- Witness for C2: a payload inside commentary is recovered exactly; a
string with no brace pair yields `None`. -/
theorem C2_extract_greedy_span_witness :
    extract ("noise ".toList ++ "\x7b\"a\": 1\x7d".toList ++ " tail".toList)
      = some ("\x7b\"a\": 1\x7d".toList) ∧
    extract ("no payload here".toList) = none := by
  constructor
  · exact C2_extract_greedy_span.1 ("noise ".toList) ("\x7b\"a\": 1\x7d".toList)
      (" tail".toList) (by decide) (by decide) (by decide) (by decide)
      (by decide) (by decide) (by decide)
  · refine C2_extract_greedy_span.2 ("no payload here".toList) ?_
    intro i j _ h
    exact absurd (List.get?_mem h.1) (by decide)

/-- Claim C3: when extraction fails on the generated text of the scoring or
active-outreach stage, the unit of work publishes nothing, ends at the
"No JSON found in the string." log without raising, and (being a detached
fire-and-forget task) hands nothing back to the original caller. -/
theorem C3_extraction_failure_is_silent_drop (lead ev : Json)
    (content : List Char) (h : extract content = none) :
    scoring_start_agent_flow lead content = .droppedNoJson ∧
    publishes (scoring_start_agent_flow lead content) = [] ∧
    active_outreach_start_agent_flow lead ev content = .droppedNoJson ∧
    publishes (active_outreach_start_agent_flow lead ev content) = [] := by
  unfold scoring_start_agent_flow active_outreach_start_agent_flow
  rw [h]
  exact ⟨rfl, rfl, rfl, rfl⟩

/-- Witness for C3 on a concrete brace-free generated text. -/
theorem C3_extraction_failure_is_silent_drop_witness :
    scoring_start_agent_flow Json.null ("plain prose, no payload".toList)
      = .droppedNoJson ∧
    publishes (active_outreach_start_agent_flow Json.null Json.null
      ("plain prose, no payload".toList)) = [] := by
  have h := C3_extraction_failure_is_silent_drop Json.null Json.null
    ("plain prose, no payload".toList) (by decide)
  exact ⟨h.1, h.2.2.2⟩

/-- A generated text whose payload violates every scoring check at once:
score 101, next_step "Maybe", only two talking points. -/
def c1_generated_content : List Char :=
  "Here is the evaluation: \x7b\"score\": \"101\", \"next_step\": \"Maybe\", \"talking_points\": [\"a\", \"b\"]\x7d".toList

/-- The brace span inside `c1_generated_content`. -/
def c1_payload_str : List Char :=
  "\x7b\"score\": \"101\", \"next_step\": \"Maybe\", \"talking_points\": [\"a\", \"b\"]\x7d".toList

/-- The parsed form of `c1_payload_str`. -/
def c1_payload : Json :=
  .obj [("score".toList, .str ("101".toList)),
        (next_step_key, .str ("Maybe".toList)),
        ("talking_points".toList, .arr [.str ("a".toList), .str ("b".toList)])]

/-- Counterexample to claim C1: the scoring stage publishes an envelope for
a payload with score 101, next_step "Maybe" and only two talking points —
nothing between `json.loads` and `produce` validates the payload, so it is
not dropped. -/
theorem C1_counterexample :
    scoring_start_agent_flow Json.null c1_generated_content
      = .emitted ⟨AGENT_OUTPUT_TOPIC, c1_payload, Json.null⟩ := by
  rfl

/-- Claim C1 (amended): the scoring stage validates nothing: whenever the
brace span is found and `json.loads` succeeds, the parsed payload is
published unchanged, whatever its score, next_step, or talking_points. -/
theorem C1_scoring_publishes_unvalidated (lead : Json)
    (content json_str : List Char) (ev : Json)
    (h1 : extract content = some json_str)
    (h2 : json_loads json_str = .ok ev) :
    scoring_start_agent_flow lead content
      = .emitted ⟨AGENT_OUTPUT_TOPIC, ev, lead⟩ := by
  unfold scoring_start_agent_flow
  simp only [h1, h2]

/-- Witness for the amended C1 at the concrete invalid payload. -/
theorem C1_scoring_publishes_unvalidated_witness :
    scoring_start_agent_flow (Json.str ("lead".toList)) c1_generated_content
      = .emitted ⟨AGENT_OUTPUT_TOPIC, c1_payload, Json.str ("lead".toList)⟩ :=
  C1_scoring_publishes_unvalidated (Json.str ("lead".toList))
    c1_generated_content c1_payload_str c1_payload (by rfl) (by rfl)

/-- A generated text whose brace span is not valid JSON. -/
def c4_generated_content : List Char :=
  "I think \x7bscore: high\x7d fits".toList

/-- Counterexample to claim C4: on a located-but-unparseable brace span the
scoring unit of work does not drop cleanly — the `json.loads` call raises
`JSONDecodeError`, which escapes the coroutine uncaught. -/
theorem C4_counterexample :
    scoring_start_agent_flow Json.null c4_generated_content
      = .raised .jsonDecodeError := by
  rfl

/-- Claim C4 (amended): when a brace span is located but fails to parse, no
envelope is published, but the unit of work terminates with an uncaught
`JSONDecodeError` instead of the claimed clean log-and-drop (the clean drop
happens only when no brace span exists at all). -/
theorem C4_parse_error_raises (lead ev : Json) (content json_str : List Char)
    (h1 : extract content = some json_str)
    (h2 : json_loads json_str = .error .jsonDecodeError) :
    scoring_start_agent_flow lead content = .raised .jsonDecodeError ∧
    publishes (scoring_start_agent_flow lead content) = [] ∧
    active_outreach_start_agent_flow lead ev content = .raised .jsonDecodeError ∧
    publishes (active_outreach_start_agent_flow lead ev content) = [] ∧
    nurture_start_agent_flow lead ev content = .raised .jsonDecodeError ∧
    publishes (nurture_start_agent_flow lead ev content) = [] := by
  unfold scoring_start_agent_flow active_outreach_start_agent_flow
    nurture_start_agent_flow
  simp only [h1, h2, publishes]
  exact ⟨trivial, trivial, trivial, trivial, trivial, trivial⟩

/-- Witness for the amended C4 at the concrete unparseable span. -/
theorem C4_parse_error_raises_witness :
    nurture_start_agent_flow Json.null Json.null c4_generated_content
      = .raised .jsonDecodeError := by
  exact (C4_parse_error_raises Json.null Json.null c4_generated_content
    ("\x7bscore: high\x7d".toList) (by rfl) (by rfl)).2.2.2.2.1

/-- A generated nurture payload whose `emails` array is empty. -/
def c5_generated_content : List Char :=
  "\x7b\"emails\": []\x7d".toList

/-- An evaluation routing the lead to the nurture stage. -/
def c5_lead_evaluation : Json :=
  .obj [(next_step_key, .str ("Nurture".toList))]

/-- Counterexample to claim C5: the nurture stage emits an envelope whose
`emails` batch is empty — the code copies `json_object["emails"]` into the
outgoing envelope with no length check, so a 0-draft batch is published
rather than suppressed. -/
theorem C5_counterexample :
    nurture_start_agent_flow Json.null c5_lead_evaluation c5_generated_content
      = .emitted ⟨AGENT_OUTPUT_TOPIC,
          .obj [(emails_key, .arr []),
                (campaign_type_key, .str ("Nurture".toList))],
          Json.null⟩ := by
  rfl

/-- Claim C5 (amended): whenever the nurture stage emits an envelope, the
emitted `emails` field is exactly the `emails` value of the parsed payload,
whatever its length (including zero): the stage enforces no
exactly-3-drafts or non-empty check. -/
theorem C5_nurture_emits_payload_emails (lead ev : Json) (content : List Char)
    (m : ProducedMessage)
    (h : nurture_start_agent_flow lead ev content = .emitted m) :
    ∃ json_str json_object seq ct,
      extract content = some json_str ∧
      json_loads json_str = .ok json_object ∧
      pyItem json_object emails_key = .ok seq ∧
      pyGet ev next_step_key Json.null = .ok ct ∧
      m = ⟨AGENT_OUTPUT_TOPIC,
        .obj [(emails_key, seq), (campaign_type_key, ct)], lead⟩ := by
  unfold nurture_start_agent_flow at h
  cases he : extract content with
  | none => rw [he] at h; cases h
  | some json_str =>
    simp only [he] at h
    cases hl : json_loads json_str with
    | error e => rw [hl] at h; cases h
    | ok json_object =>
      simp only [hl] at h
      cases hi : pyItem json_object emails_key with
      | error e => rw [hi] at h; cases h
      | ok seq =>
        simp only [hi] at h
        cases hg : pyGet ev next_step_key Json.null with
        | error e => rw [hg] at h; cases h
        | ok ct =>
          simp only [hg] at h
          injection h with h2
          exact ⟨json_str, json_object, seq, ct, rfl, hl, hi, rfl, h2.symm⟩

/-- Witness for the amended C5 at the concrete empty-batch emission. -/
theorem C5_nurture_emits_payload_emails_witness :
    ∃ json_str json_object seq ct,
      extract c5_generated_content = some json_str ∧
      json_loads json_str = .ok json_object ∧
      pyItem json_object emails_key = .ok seq ∧
      pyGet c5_lead_evaluation next_step_key Json.null = .ok ct ∧
      (⟨AGENT_OUTPUT_TOPIC,
        .obj [(emails_key, Json.arr []),
              (campaign_type_key, .str ("Nurture".toList))],
        Json.null⟩ : ProducedMessage)
        = ⟨AGENT_OUTPUT_TOPIC,
            .obj [(emails_key, seq), (campaign_type_key, ct)], Json.null⟩ :=
  C5_nurture_emits_payload_emails Json.null c5_lead_evaluation
    c5_generated_content
    ⟨AGENT_OUTPUT_TOPIC,
      .obj [(emails_key, Json.arr []),
            (campaign_type_key, .str ("Nurture".toList))],
      Json.null⟩ (by rfl)

/-- Claim C6: whenever the active-outreach stage emits an envelope, the
single extracted draft is wrapped in an `emails` list of length exactly
one, and `campaign_type` is the incoming evaluation's `next_step` value
(as read by `lead_evaluation.get("next_step", None)`). -/
theorem C6_outreach_wraps_single_draft (lead ev : Json) (content : List Char)
    (m : ProducedMessage)
    (h : active_outreach_start_agent_flow lead ev content = .emitted m) :
    ∃ email_details ct,
      pyGet ev next_step_key Json.null = .ok ct ∧
      m = ⟨AGENT_OUTPUT_TOPIC,
        .obj [(emails_key, .arr [email_details]), (campaign_type_key, ct)],
        lead⟩ := by
  unfold active_outreach_start_agent_flow at h
  cases he : extract content with
  | none => rw [he] at h; cases h
  | some json_str =>
    simp only [he] at h
    cases hl : json_loads json_str with
    | error e => rw [hl] at h; cases h
    | ok email_details =>
      simp only [hl] at h
      cases hg : pyGet ev next_step_key Json.null with
      | error e => rw [hg] at h; cases h
      | ok ct =>
        simp only [hg] at h
        injection h with h2
        exact ⟨email_details, ct, rfl, h2.symm⟩

/-- A generated outreach email draft. -/
def c6_generated_content : List Char :=
  "\x7b\"to\": \"jane.doe@acme.com\", \"subject\": \"Hi\", \"body\": \"Hello\"\x7d".toList

/-- The parsed form of `c6_generated_content`. -/
def c6_email_details : Json :=
  .obj [("to".toList, .str ("jane.doe@acme.com".toList)),
        ("subject".toList, .str ("Hi".toList)),
        ("body".toList, .str ("Hello".toList))]

/-- An evaluation routing the lead to active outreach. -/
def c6_lead_evaluation : Json :=
  .obj [(next_step_key, .str ("Actively Engage".toList))]

/-- Witness for C6 at a concrete emission. -/
theorem C6_outreach_wraps_single_draft_witness :
    ∃ email_details ct,
      pyGet c6_lead_evaluation next_step_key Json.null = .ok ct ∧
      (⟨AGENT_OUTPUT_TOPIC,
        .obj [(emails_key, .arr [c6_email_details]),
              (campaign_type_key, .str ("Actively Engage".toList))],
        Json.null⟩ : ProducedMessage)
        = ⟨AGENT_OUTPUT_TOPIC,
            .obj [(emails_key, .arr [email_details]),
                  (campaign_type_key, ct)], Json.null⟩ :=
  C6_outreach_wraps_single_draft Json.null c6_lead_evaluation
    c6_generated_content
    ⟨AGENT_OUTPUT_TOPIC,
      .obj [(emails_key, .arr [c6_email_details]),
            (campaign_type_key, .str ("Actively Engage".toList))],
      Json.null⟩ (by rfl)

/-- Claim C7: every handler fans an inbound batch of size N into exactly N
scheduled units of work (one per item, for the outreach handler provided
every item's context decodes) and returns the fixed HTTP 200 plain-text
acknowledgement, whose value does not depend on any scheduled unit of
work. -/
theorem C7_batch_fanout_and_immediate_ack (scoring_data : List ScoringItem)
    (ingestion_data : List IngestionItem) (outreach_data : List RawItem)
    (tasks : List OutreachTask)
    (h : parsedTasks outreach_data = some tasks) :
    (lead_scoring_agent scoring_data).1.length = scoring_data.length ∧
    (lead_scoring_agent scoring_data).2 = ack scoring_ack_text ∧
    (lead_ingestion_agent ingestion_data).1.length = ingestion_data.length ∧
    (lead_ingestion_agent ingestion_data).2 = ack ingestion_ack_text ∧
    active_outreach_agent outreach_data = .ok tasks (ack outreach_ack_text) ∧
    tasks.length = outreach_data.length ∧
    (ack scoring_ack_text).status_code = 200 ∧
    (ack scoring_ack_text).media_type = "text/plain".toList := by
  refine ⟨by simp [lead_scoring_agent], rfl,
    by simp [lead_ingestion_agent], rfl, ?_,
    parsedTasks_length _ _ h, rfl, rfl⟩
  have hloop := handler_loop_ok outreach_ack_text outreach_data [] tasks h
  simpa [active_outreach_agent] using hloop

/-- A batch item whose context string decodes (to JSON `null`). -/
def good_item : RawItem := ⟨Json.null, "null".toList⟩

/-- A batch item whose context string is not valid JSON. -/
def bad_item : RawItem := ⟨Json.null, "notjson".toList⟩

/-- Witness for C7 on concrete one-element batches. -/
theorem C7_batch_fanout_and_immediate_ack_witness :
    (lead_scoring_agent [⟨Json.null, Json.null⟩]).1.length = 1 ∧
    active_outreach_agent [good_item]
      = .ok [⟨Json.null, Json.null⟩] (ack outreach_ack_text) := by
  have h := C7_batch_fanout_and_immediate_ack [⟨Json.null, Json.null⟩]
    [⟨Json.null, Json.null⟩] [good_item] [⟨Json.null, Json.null⟩] (by rfl)
  exact ⟨h.1, h.2.2.2.2.1⟩

/-- Claim C10: in the outreach and nurture handlers each item's context is
JSON-decoded synchronously in the request loop before its task is created,
so a batch containing an undecodable context schedules tasks only for the
items before it — none for it or any later item — and the handler ends in
the propagated exception, not the HTTP 200 acknowledgement. -/
theorem C10_bad_context_stops_batch (pre : List RawItem) (bad : RawItem)
    (post : List RawItem) (tasks : List OutreachTask) (e : PyErr)
    (hpre : parsedTasks pre = some tasks)
    (hbad : json_loads bad.context = .error e) :
    active_outreach_agent (pre ++ bad :: post) = .raised tasks e ∧
    nurture_campaign_agent (pre ++ bad :: post) = .raised tasks e ∧
    tasks.length = pre.length ∧
    (∀ ts resp, HandlerOutcome.raised tasks e ≠ HandlerOutcome.ok ts resp) := by
  refine ⟨?_, ?_, parsedTasks_length _ _ hpre, ?_⟩
  · have h := handler_loop_raised outreach_ack_text bad post e hbad pre [] tasks hpre
    simpa [active_outreach_agent] using h
  · have h := handler_loop_raised nurture_ack_text bad post e hbad pre [] tasks hpre
    simpa [nurture_campaign_agent] using h
  · intro ts resp hcon
    cases hcon

/-- Witness for C10 on a concrete three-element batch whose middle item has
an undecodable context. -/
theorem C10_bad_context_stops_batch_witness :
    active_outreach_agent [good_item, bad_item, good_item]
      = .raised [⟨Json.null, Json.null⟩] .jsonDecodeError ∧
    nurture_campaign_agent [good_item, bad_item, good_item]
      = .raised [⟨Json.null, Json.null⟩] .jsonDecodeError := by
  have h := C10_bad_context_stops_batch [good_item] bad_item [good_item]
    [⟨Json.null, Json.null⟩] .jsonDecodeError (by rfl) (by rfl)
  exact ⟨h.1, h.2.1⟩

/-- A network world returning HTTP 201 (a 2xx status other than 200). -/
def c8_net_201 : List Char → FetchResult :=
  fun _ => .success ⟨201, "hello".toList⟩

/-- Counterexample to claim C8: on a 2xx response whose status is 201, the
website tool returns `None` rather than the page text, because the code
tests `status_code == 200` exactly, not the 2xx range. -/
theorem C8_counterexample :
    (200 ≤ 201 ∧ 201 < 300) ∧
    get_company_website_information c8_net_201 (fun t => t)
      ("https://example.com".toList) = none := by
  exact ⟨⟨by norm_num, by norm_num⟩, rfl⟩

/-- Claim C8 (amended): the website tool issues the GET with the fixed
10-second timeout and browser user-agent; it returns the visible text with
blank lines removed only when the status is exactly 200, and returns `None`
on every other status (2xx included) and on any request exception — in all
cases it returns instead of raising. -/
theorem C8_website_fetch_only_200 (net : List Char → FetchResult)
    (visibleText : List Char → List Char) (url : List Char)
    (r : HttpResponse) :
    request_timeout_seconds = 10 ∧
    user_agent_header =
      ("Mozilla/5.0 (Windows NT 10.0; Win64; x64) AppleWebKit/537.36 (KHTML, like Gecko) Chrome/98.0.4758.102 Safari/537.36".toList) ∧
    (net url = .success r →
      get_company_website_information net visibleText url =
        if r.status_code = 200 then
          some (remove_empty_lines (visibleText r.text))
        else none) ∧
    (net url = .requestException →
      get_company_website_information net visibleText url = none) := by
  refine ⟨rfl, rfl, ?_, ?_⟩
  · intro h
    unfold get_company_website_information
    rw [h]
  · intro h
    unfold get_company_website_information
    rw [h]

/-- A network world returning HTTP 200 with a body containing blank lines. -/
def c8_net_200 : List Char → FetchResult :=
  fun _ => .success ⟨200, "a\n\n b".toList⟩

/-- Witness for the amended C8 at a concrete 200 response. -/
theorem C8_website_fetch_only_200_witness :
    get_company_website_information c8_net_200 (fun t => t)
      ("https://example.com".toList) = some ("a\n b".toList) := by
  have h := (C8_website_fetch_only_200 c8_net_200 (fun t => t)
    ("https://example.com".toList) ⟨200, "a\n\n b".toList⟩).2.2.1 rfl
  exact h.trans (by rfl)

/-- Claim C9: contrary to the `f(input) -> string | Unavailable` contract,
every generator-backed lookup tool (content search, LinkedIn, Salesforce,
Clearbit) raises a `NameError` on every call: each body binds its
generation result to the local `data` but then executes `return response`,
and no name `response` is bound in those functions. -/
theorem C9_tools_raise_name_error (gen : List Char → List Char)
    (input : List Char) :
    find_relevant_content gen input = .error (.nameError response_name) ∧
    get_recent_linkedin_posts gen input = .error (.nameError response_name) ∧
    get_salesforce_data gen input = .error (.nameError response_name) ∧
    get_enriched_lead_data gen input = .error (.nameError response_name) :=
  ⟨rfl, rfl, rfl, rfl⟩

end SDR
